import Mathlib

/-!
Verification of the DNS implementation in `dns.py` (a from-scratch DNS
message codec and iterative resolver).

Byte buffers and Python `bytes`/`str` values are modelled as `List Nat`
(each element an octet / ASCII code).  The `io.BytesIO` reader is modelled
by passing the whole buffer together with an explicit cursor position.
Unbounded recursion / `while True` loops are modelled with an explicit
fuel parameter: `DecRes.out` means the computation was still running when
the fuel ran out, so `∀ fuel, f fuel = .out` states that the Python code
never finishes (and in particular never raises).  `DecRes.err` models a
Python exception escaping the modelled code (IndexError, struct.error, …).
-/

/-- Outcome of a modelled Python computation: a value, an exception, or
"still running after `fuel` steps". -/
inductive DecRes (α : Type) where
  | ok : α → DecRes α
  | err : DecRes α
  | out : DecRes α
deriving DecidableEq, Repr

/-- Monadic sequencing on `DecRes`: exceptions and fuel exhaustion propagate. -/
def DecRes.bind {α β : Type} : DecRes α → (α → DecRes β) → DecRes β
  | .ok a, f => f a
  | .err, _ => .err
  | .out, _ => .out

/- Constants from the source: DNS_PORT = 53, TYPE_A = 1, TYPE_TXT = 16,
TYPE_NS = 2, CLASS_IN = 1. -/

def TYPE_A : Nat := 1
def TYPE_TXT : Nat := 16
def TYPE_NS : Nat := 2
def CLASS_IN : Nat := 1

/-- `DNSHeader` dataclass: six 16-bit fields. -/
structure DNSHeader where
  id : Nat
  flags : Nat
  num_questions : Nat
  num_answers : Nat
  num_authorities : Nat
  num_additionals : Nat
deriving DecidableEq, Repr

/-- `DNSQuestion` dataclass. -/
structure DNSQuestion where
  name : List Nat
  type_ : Nat
  class_ : Nat
deriving DecidableEq, Repr

/-- `DNSRecord` dataclass.  In Python `data` is `bytes` for NS/other
records and a `str` (the dotted-decimal rendering) for A records; both are
modelled as `List Nat` of octets / ASCII codes. -/
structure DNSRecord where
  name : List Nat
  type_ : Nat
  class_ : Nat
  ttl : Nat
  data : List Nat
deriving DecidableEq, Repr

/-- `DNSPacket` dataclass. -/
structure DNSPacket where
  header : DNSHeader
  questions : List DNSQuestion
  answers : List DNSRecord
  authorities : List DNSRecord
  additionals : List DNSRecord
deriving DecidableEq, Repr

/-- Python `domain_name.encode("ascii").split(b".")`: split a byte string
on the dot octet 46, keeping empty parts (as Python `split` does). -/
def splitOnDot : List Nat → List (List Nat)
  | [] => [[]]
  | c :: rest =>
    if c = 46 then [] :: splitOnDot rest
    else
      match splitOnDot rest with
      | [] => [[c]]
      | p :: ps => (c :: p) :: ps

/-- Python `b".".join(parts)`. -/
def dotJoin : List (List Nat) → List Nat
  | [] => []
  | [p] => p
  | p :: q :: ps => p ++ 46 :: dotJoin (q :: ps)

/-- The loop body of `encode_dns_name`: for each part emit a one-byte
length followed by the part's raw bytes. -/
def encodeParts : List (List Nat) → List Nat
  | [] => []
  | p :: ps => p.length :: (p ++ encodeParts ps)

/-- `encode_dns_name`: split on dots, length-prefix each label, terminate
with a zero byte.  `bytes([len(part)])` raises `ValueError` when a part is
longer than 255 bytes, modelled as `none`; no other validation is done. -/
def encode_dns_name (domain : List Nat) : Option (List Nat) :=
  if (splitOnDot domain).all (fun p => p.length ≤ 255) then
    some (encodeParts (splitOnDot domain) ++ [0])
  else none

/-- The branch condition `length & 0b1100_0000` of `decode_name`
(Python truthiness: any nonzero result selects the pointer branch). -/
def isPointerLength (length : Nat) : Bool := length &&& 192 != 0

/-- The label-collecting loop of `decode_name`, returning the list of
parts and the final reader position.  The compression-pointer branch
(`decode_compressed_name` in the source) is inlined: it reads the second
pointer byte, recursively decodes at the 14-bit pointer offset, appends
the joined result as the final part, restores the position after the two
pointer bytes, and stops.  `reader.read(1)[0]` on an exhausted buffer
raises IndexError (`err`); `reader.read(n)` returns up to `n` bytes
without error.  One unit of fuel is spent per loop iteration and per
pointer hop; the source itself has no bound, so nontermination shows up
as `out` for every fuel. -/
def decodeNameParts : Nat → List Nat → Nat → DecRes (List (List Nat) × Nat)
  | 0, _, _ => .out
  | fuel + 1, buf, pos =>
    match buf[pos]? with
    | none => .err
    | some length =>
      if length = 0 then .ok ([], pos + 1)
      else if isPointerLength length then
        match buf[pos + 1]? with
        | none => .err
        | some b2 =>
          match decodeNameParts fuel buf ((length &&& 63) * 256 + b2) with
          | .ok (ps, _) => .ok ([dotJoin ps], pos + 2)
          | .err => .err
          | .out => .out
      else
        let part := (buf.drop (pos + 1)).take length
        match decodeNameParts fuel buf (pos + 1 + part.length) with
        | .ok (ps, p2) => .ok (part :: ps, p2)
        | .err => .err
        | .out => .out

/-- `decode_name`: the collected parts joined with dots, plus the final
reader position. -/
def decode_name (fuel : Nat) (buf : List Nat) (pos : Nat) :
    DecRes (List Nat × Nat) :=
  match decodeNameParts fuel buf pos with
  | .ok (ps, p) => .ok (dotJoin ps, p)
  | .err => .err
  | .out => .out

/-- The label-collecting loop of `decode_name_simple` (no pointer
handling: every nonzero length byte is a label length). -/
def decodeSimpleParts : Nat → List Nat → Nat → DecRes (List (List Nat) × Nat)
  | 0, _, _ => .out
  | fuel + 1, buf, pos =>
    match buf[pos]? with
    | none => .err
    | some length =>
      if length = 0 then .ok ([], pos + 1)
      else
        let part := (buf.drop (pos + 1)).take length
        match decodeSimpleParts fuel buf (pos + 1 + part.length) with
        | .ok (ps, p2) => .ok (part :: ps, p2)
        | .err => .err
        | .out => .out

/-- `decode_name_simple`. -/
def decode_name_simple (fuel : Nat) (buf : List Nat) (pos : Nat) :
    DecRes (List Nat × Nat) :=
  match decodeSimpleParts fuel buf pos with
  | .ok (ps, p) => .ok (dotJoin ps, p)
  | .err => .err
  | .out => .out

/-- Decimal ASCII rendering of one octet, `str(x)` in Python. -/
def decDigits (x : Nat) : List Nat := (Nat.toDigits 10 x).map Char.toNat

/-- `ip_to_string`: `".".join(str(x) for x in ip)`. -/
def ip_to_string (ip : List Nat) : List Nat := dotJoin (ip.map decDigits)

/-- `parse_header`: `reader.read(12)` then `struct.unpack("!HHHHHH", data)`,
which raises `struct.error` unless exactly 12 bytes were read.  The reader
is always at position 0 here (a fresh `BytesIO` per packet). -/
def parse_header (buf : List Nat) : DecRes DNSHeader :=
  match buf.take 12 with
  | [a, b, c, d, e, f, g, h, i, j, k, l] =>
    .ok ⟨a * 256 + b, c * 256 + d, e * 256 + f, g * 256 + h,
         i * 256 + j, k * 256 + l⟩
  | _ => .err

/-- `parse_question`: simple name decode, then `struct.unpack("!HH", reader.read(4))`. -/
def parse_question (fuel : Nat) (buf : List Nat) (pos : Nat) :
    DecRes (DNSQuestion × Nat) :=
  (decode_name_simple fuel buf pos).bind fun np =>
    match (buf.drop np.2).take 4 with
    | [a, b, c, d] => .ok (⟨np.1, a * 256 + b, c * 256 + d⟩, np.2 + 4)
    | _ => .err

/-- `parse_record`: compression-aware name decode, then
`struct.unpack("!HHIH", reader.read(10))`, then the type-dependent data:
NS → another compression-aware name decode; A → `ip_to_string` of the
next `data_len` bytes (`reader.read` returns up to `data_len` bytes, with
no check that `data_len` bytes were present, nor that `data_len == 4`);
otherwise → the raw bytes read. -/
def parse_record (fuel : Nat) (buf : List Nat) (pos : Nat) :
    DecRes (DNSRecord × Nat) :=
  (decode_name fuel buf pos).bind fun np =>
    match (buf.drop np.2).take 10 with
    | [a, b, c, d, e, f, g, h, i, j] =>
      let type_ := a * 256 + b
      let class_ := c * 256 + d
      let ttl := ((e * 256 + f) * 256 + g) * 256 + h
      let data_len := i * 256 + j
      let p2 := np.2 + 10
      if type_ = TYPE_NS then
        (decode_name fuel buf p2).bind fun dp =>
          .ok (⟨np.1, type_, class_, ttl, dp.1⟩, dp.2)
      else if type_ = TYPE_A then
        let raw := (buf.drop p2).take data_len
        .ok (⟨np.1, type_, class_, ttl, ip_to_string raw⟩, p2 + raw.length)
      else
        let raw := (buf.drop p2).take data_len
        .ok (⟨np.1, type_, class_, ttl, raw⟩, p2 + raw.length)
    | _ => .err

/-- The list comprehension `[parse_question(reader) for _ in range(n)]`. -/
def parseQuestions (fuel : Nat) (buf : List Nat) :
    Nat → Nat → DecRes (List DNSQuestion × Nat)
  | 0, pos => .ok ([], pos)
  | n + 1, pos =>
    (parse_question fuel buf pos).bind fun qp =>
      (parseQuestions fuel buf n qp.2).bind fun qsp =>
        .ok (qp.1 :: qsp.1, qsp.2)

/-- The list comprehension `[parse_record(reader) for _ in range(n)]`. -/
def parseRecords (fuel : Nat) (buf : List Nat) :
    Nat → Nat → DecRes (List DNSRecord × Nat)
  | 0, pos => .ok ([], pos)
  | n + 1, pos =>
    (parse_record fuel buf pos).bind fun rp =>
      (parseRecords fuel buf n rp.2).bind fun rsp =>
        .ok (rp.1 :: rsp.1, rsp.2)

/-- `parse_dns_packet`: header from position 0, then the declared numbers
of questions, answers, authorities and additionals, sharing one cursor. -/
def parse_dns_packet (fuel : Nat) (buf : List Nat) : DecRes DNSPacket :=
  (parse_header buf).bind fun header =>
    (parseQuestions fuel buf header.num_questions 12).bind fun qs =>
      (parseRecords fuel buf header.num_answers qs.2).bind fun ans =>
        (parseRecords fuel buf header.num_authorities ans.2).bind fun auth =>
          (parseRecords fuel buf header.num_additionals auth.2).bind fun add =>
            .ok ⟨header, qs.1, ans.1, auth.1, add.1⟩

/- Resolver. -/

/-- `get_answer`: the first record in the answer section whose type is
`TYPE_A` (note: `TYPE_A`, not the requested record type), returning
`str(a.data)` — the identity on the dotted-decimal string that
`parse_record` stores for A records. -/
def get_answer (packet : DNSPacket) : Option (List Nat) :=
  (packet.answers.find? fun a => a.type_ == TYPE_A).map fun a => a.data

/-- `get_nameserver_ip`: the first A record in the additional section. -/
def get_nameserver_ip (packet : DNSPacket) : Option (List Nat) :=
  (packet.additionals.find? fun a => a.type_ == TYPE_A).map fun a => a.data

/-- `get_nameserver`: the first NS record in the authority section,
`a.data.decode("utf-8")` being the identity on the modelled bytes. -/
def get_nameserver (packet : DNSPacket) : Option (List Nat) :=
  (packet.authorities.find? fun a => a.type_ == TYPE_NS).map fun a => a.data

/-- Python walrus-`if` truthiness on an `Optional[str]`: both `None` and
the empty string are falsy and fall through to the next `elif`. -/
def truthyOpt : Option (List Nat) → Option (List Nat)
  | some [] => none
  | o => o

/-- What one iteration of the `while True` loop of `resolve` decides. -/
inductive ResolveAction where
  | success : List Nat → ResolveAction
  | continueWith : List Nat → ResolveAction
  | recurse : List Nat → ResolveAction
  | deadEnd : ResolveAction
deriving DecidableEq, Repr

/-- The `if / elif / elif / else` chain in the body of `resolve`:
answer → return it; additional-section A record → loop with that address;
authority-section NS record → recursively resolve it; otherwise raise. -/
def resolveStep (response : DNSPacket) : ResolveAction :=
  match truthyOpt (get_answer response) with
  | some ip => .success ip
  | none =>
    match truthyOpt (get_nameserver_ip response) with
    | some ns => .continueWith ns
    | none =>
      match truthyOpt (get_nameserver response) with
      | some d => .recurse d
      | none => .deadEnd

/-- Modelled from the spec: the network round trip of `send_query`
(build a query, UDP exchange via the external Transport, parse the
response) is abstracted as a function from (nameserver, domain name,
record type) to the decoded response packet; the spec lists the UDP
socket primitive as an out-of-scope external collaborator. -/
def Oracle : Type := List Nat → List Nat → Nat → DNSPacket

/-- The root nameserver address the source hard-codes, `"198.41.0.4"`. -/
def rootNameserver : List Nat := [49, 57, 56, 46, 52, 49, 46, 48, 46, 52]

/-- The `while True` loop of `resolve`, with an explicit current
nameserver and a fuel bound: one unit per query sent (both the outer loop
and the nested `resolve(ns_domain, TYPE_A)` call), `out` meaning the
Python code is still querying when the fuel runs out.  The source has no
bound of its own, so `∀ fuel, … = .out` states nontermination. -/
def resolveLoop (oracle : Oracle) :
    Nat → List Nat → List Nat → Nat → DecRes (List Nat)
  | 0, _, _, _ => .out
  | fuel + 1, nameserver, domain, recordType =>
    match resolveStep (oracle nameserver domain recordType) with
    | .success ip => .ok ip
    | .continueWith ns2 => resolveLoop oracle fuel ns2 domain recordType
    | .recurse nsDomain =>
      match resolveLoop oracle fuel rootNameserver nsDomain TYPE_A with
      | .ok ns2 => resolveLoop oracle fuel ns2 domain recordType
      | .err => .err
      | .out => .out
    | .deadEnd => .err

/-- `resolve`: start the loop at the hard-coded root nameserver. -/
def resolve (oracle : Oracle) (fuel : Nat) (domain : List Nat)
    (recordType : Nat) : DecRes (List Nat) :=
  resolveLoop oracle fuel rootNameserver domain recordType

/- Query construction. -/

/-- Big-endian 16-bit encoding, one `"!H"` field of `struct.pack`
(`struct.pack` raises on values ≥ 2^16; every call site below stays in
range, so the truncating total model is exact there). -/
def be16 (n : Nat) : List Nat := [n % 65536 / 256, n % 256]

/-- `header_to_bytes`: `struct.pack("!HHHHHH", *fields)` in dataclass
field order. -/
def header_to_bytes (header : DNSHeader) : List Nat :=
  be16 header.id ++ be16 header.flags ++ be16 header.num_questions ++
    be16 header.num_answers ++ be16 header.num_authorities ++
    be16 header.num_additionals

/-- `question_to_bytes`: the encoded name followed by type and class. -/
def question_to_bytes (question : DNSQuestion) : List Nat :=
  question.name ++ be16 question.type_ ++ be16 question.class_

/-- Modelled from the spec: Python's `random` module, which the spec
lists as an out-of-scope external collaborator ("deterministic
random-number seeding used only for reproducible query IDs").  It is a
deterministic generator: `seed(n)` puts it in a state that is a function
of `n` alone, and `randint` is a function of the state; the Mersenne
Twister internals are abstracted by a simple state-advancing map. -/
structure PyRandom where
  state : Nat
deriving DecidableEq, Repr

/-- Modelled from the spec: `random.seed(n)`. -/
def PyRandom.seed (n : Nat) : PyRandom := ⟨n⟩

/-- Modelled from the spec: `random.randint(lo, hi)`, returning a value
in `[lo, hi]` and the advanced generator state. -/
def PyRandom.randint (r : PyRandom) (lo hi : Nat) : Nat × PyRandom :=
  (lo + r.state % (hi - lo + 1),
   ⟨r.state * 6364136223846793005 + 1442695040888963407⟩)

/-- Line 19 of the source, run at import time: `random.seed(1)`.  The
process entropy that Python would otherwise seed the global generator
with is ignored — the state is a constant. -/
def moduleRandomState (_osEntropy : Nat) : PyRandom := PyRandom.seed 1

/-- `build_query`: encode the name (any encoding error escapes before the
generator is touched), draw a 16-bit id, build the header
(`num_questions = 1`, `flags = 0`) and question (`class_ = CLASS_IN`),
and concatenate their bytes.  Returns the bytes and the advanced
generator state. -/
def build_query (rng : PyRandom) (domain : List Nat) (recordType : Nat) :
    Option (List Nat) × PyRandom :=
  match encode_dns_name domain with
  | none => (none, rng)
  | some name =>
    let idr := rng.randint 0 65535
    let header : DNSHeader := ⟨idr.1, 0, 1, 0, 0, 0⟩
    let question : DNSQuestion := ⟨name, recordType, CLASS_IN⟩
    (some (header_to_bytes header ++ question_to_bytes question), idr.2)

/-- The generator state after `k` calls to `build_query` with these
arguments. -/
def queryStateAfter (domain : List Nat) (recordType : Nat) :
    Nat → PyRandom → PyRandom
  | 0, st => st
  | k + 1, st => queryStateAfter domain recordType k (build_query st domain recordType).2

/-- The bytes produced by the k-th `build_query` call of a process whose
startup entropy was `osEntropy` (counting calls from 0). -/
def kthQueryBytes (osEntropy k : Nat) (domain : List Nat)
    (recordType : Nat) : Option (List Nat) :=
  (build_query (queryStateAfter domain recordType k (moduleRandomState osEntropy))
    domain recordType).1

/- Concrete packets and networks used by the claim theorems below. -/

/-- A referral response with no answers and a glue A record `"1.2.3.4"`
in the additional section. -/
def gluePacket : DNSPacket :=
  ⟨⟨0, 0, 0, 0, 0, 1⟩, [], [], [],
   [⟨[], 1, 1, 0, [49, 46, 50, 46, 51, 46, 52]⟩]⟩

/-- A network in which every nameserver answers every query with the
same glue referral — an endless referral chain. -/
def glueOracle : Oracle := fun _ _ _ => gluePacket

/-- A response whose answer section holds one TXT (type 16) record. -/
def txtPacket : DNSPacket :=
  ⟨⟨0, 0, 0, 1, 0, 0⟩, [], [⟨[], 16, 1, 0, [104, 105]⟩], [], []⟩

/-- A network in which every response is `txtPacket`. -/
def txtOracle : Oracle := fun _ _ _ => txtPacket

/-- An authoritative response: answer section with one A record
`"1.2.3.4"`. -/
def answerPacket : DNSPacket :=
  ⟨⟨0, 0, 0, 1, 0, 0⟩, [], [⟨[], 1, 1, 0, [49, 46, 50, 46, 51, 46, 52]⟩],
   [], []⟩

/-- A network in which every response is `answerPacket`. -/
def answerOracle : Oracle := fun _ _ _ => answerPacket

/-- A response offering answers and glue at once: an answer-section A
record `"1.2.3.4"` and an additional-section A record `"5.6.7.8"`. -/
def mixedPacket : DNSPacket :=
  ⟨⟨0, 0, 0, 1, 0, 1⟩, [], [⟨[], 1, 1, 0, [49, 46, 50, 46, 51, 46, 52]⟩],
   [], [⟨[], 1, 1, 0, [53, 46, 54, 46, 55, 46, 56]⟩]⟩

/-- A referral response with no glue: one authority-section NS record
naming `"ns1"`. -/
def nsPacket : DNSPacket :=
  ⟨⟨0, 0, 0, 0, 1, 0⟩, [], [], [⟨[], 2, 1, 0, [110, 115, 49]⟩], []⟩

/- Claim theorems. -/

lemma decodeNameParts_self_loop (fuel : Nat) :
    decodeNameParts fuel [192, 0] 0 = .out := by
  induction fuel with
  | zero => rfl
  | succ f ih =>
    have h0 : ((192 &&& 63) * 256 : Nat) = 0 := by decide
    simp [decodeNameParts, isPointerLength, h0, ih]

/-- C1: the buffer `b"\xc0\x00"` holds a compression pointer to offset 0,
i.e. to itself.  `decode_name` follows it forever: for every fuel bound it
is still running (`out`), so it neither terminates within buffer-length
hops nor raises `MalformedMessageError` — the source has no cycle guard
at all, contradicting the claim. -/
theorem decode_name_self_pointer_diverges :
    ∀ fuel : Nat, decode_name fuel [192, 0] 0 = .out := by
  intro fuel
  simp [decode_name, decodeNameParts_self_loop]

/-- C2, counterexample: the length byte 64 = 0b0100_0000 has value
< 0xC0 = 192, yet `decode_name` takes the compression-pointer branch on
it (`64 & 0b1100_0000` is nonzero): on the buffer `[0, 64, 0]` at
position 1 it reads the pointer (64,0), follows it to offset 0 and
returns the empty name, where an ordinary-label-length reading (shown by
`decode_name_simple`, which has no pointer branch) would try to read a
64-byte label and fail on this short buffer. -/
theorem pointer_flag_counterexample :
    isPointerLength 64 = true ∧ ¬ (192 ≤ 64) ∧
    decode_name 3 [0, 64, 0] 1 = .ok ([], 3) ∧
    decode_name_simple 3 [0, 64, 0] 1 = .err := by decide

set_option maxRecDepth 4096 in
/-- C2, amended: a length byte signals a compression pointer exactly when
at least one of its top two bits is set, i.e. when its value is ≥ 0x40 =
64; only bytes below 0x40 are treated as ordinary label lengths. -/
theorem pointer_flag_iff_ge_64 :
    ∀ length : Nat, length ≤ 255 → (isPointerLength length = true ↔ 64 ≤ length) := by
  decide

/-- C2, witness for the amended theorem at the byte 64. -/
theorem pointer_flag_iff_ge_64_witness :
    (64 ≤ 255) ∧ (isPointerLength 64 = true ↔ 64 ≤ 64) :=
  ⟨by decide, pointer_flag_iff_ge_64 64 (by decide)⟩

/-- C6: a record declaring type A with `data_len = 3` (name = root, class
IN, ttl 0, rdata `[9, 9, 9]`).  `parse_record` accepts it and renders the
three bytes as the text `"9.9.9"` (ASCII `[57, 46, 57, 46, 57]`) — it
never checks `data_len = 4`, so no `MalformedMessageError` is possible
here, contradicting the claim. -/
theorem parse_record_a_rdlength_three :
    parse_record 2 [0, 0, 1, 0, 1, 0, 0, 0, 0, 0, 3, 9, 9, 9] 0 =
      .ok (⟨[], 1, 1, 0, [57, 46, 57, 46, 57]⟩, 14) := by decide

/-- C7: a 25-byte buffer whose header declares one answer record; the
record declares `data_len = 4` but only 2 rdata bytes `[1, 2]` remain.
`parse_dns_packet` does not fail: it silently returns a complete-looking
packet whose single answer carries the partial address text `"1.2"`
(ASCII `[49, 46, 50]`), contradicting the claim that exhaustion inside a
declared record raises `MalformedMessageError`. -/
theorem parse_packet_truncated_rdata :
    parse_dns_packet 2
        [0, 0, 0, 0, 0, 0, 0, 1, 0, 0, 0, 0,
         0, 0, 1, 0, 1, 0, 0, 0, 0, 0, 4, 1, 2] =
      .ok ⟨⟨0, 0, 0, 1, 0, 0⟩, [], [⟨[], 1, 1, 0, [49, 46, 50]⟩], [], []⟩ := by
  decide

/-- C8: a domain name consisting of a single 64-byte label (64 × `'a'`).
`encode_dns_name` does not fail: it emits the length byte 64 followed by
the raw label and the terminating zero, with no `EncodingError` — the
63-byte bound is not enforced, contradicting the first half of the
claim. -/
theorem encode_long_label_accepted :
    splitOnDot (List.replicate 64 97) = [List.replicate 64 97] ∧
    encode_dns_name (List.replicate 64 97) =
      some (64 :: (List.replicate 64 97 ++ [0])) := by decide

/-- C4: against a network whose every response is a glue referral,
`resolve` queries forever: for every fuel bound it is still running
(`out`), so no referral limit exists and `ResolutionError("referral limit
exceeded")` is never raised (the source's only failure is the generic
`Exception("something went wrong")` on a dead end), contradicting the
claim. -/
theorem resolve_referral_chain_diverges :
    ∀ (fuel : Nat) (nameserver domain : List Nat) (recordType : Nat),
      resolveLoop glueOracle fuel nameserver domain recordType = .out ∧
        resolve glueOracle fuel domain recordType = .out := by
  intro fuel
  have key : ∀ (ns d : List Nat) (rt : Nat),
      resolveLoop glueOracle fuel ns d rt = .out := by
    induction fuel with
    | zero => intro ns d rt; rfl
    | succ f ih =>
      intro ns d rt
      have hstep : resolveStep (glueOracle ns d rt) =
          .continueWith [49, 46, 50, 46, 51, 46, 52] := rfl
      simp only [resolveLoop, hstep]
      exact ih _ _ _
  intro ns d rt
  exact ⟨key ns d rt, key rootNameserver d rt⟩

lemma resolveStep_success_iff (p : DNSPacket) (v : List Nat) :
    resolveStep p = .success v ↔ truthyOpt (get_answer p) = some v := by
  unfold resolveStep
  cases truthyOpt (get_answer p) with
  | some ip => simp
  | none =>
    cases truthyOpt (get_nameserver_ip p) with
    | some ns => simp
    | none =>
      cases truthyOpt (get_nameserver p) with
      | some d => simp
      | none => simp

lemma truthy_get_answer_iff (p : DNSPacket) (v : List Nat) :
    truthyOpt (get_answer p) = some v ↔
      ∃ r, p.answers.find? (fun a => a.type_ == TYPE_A) = some r ∧
        r.data ≠ [] ∧ v = r.data := by
  cases hf : p.answers.find? (fun a => a.type_ == TYPE_A) with
  | none => simp [get_answer, hf, truthyOpt]
  | some r =>
    cases hd : r.data with
    | nil => simp [get_answer, hf, hd, truthyOpt]
    | cons a l =>
      simp only [get_answer, hf, Option.map_some', hd, truthyOpt]
      constructor
      · rintro h
        exact ⟨r, rfl, by simp [hd], by injection h with h2; rw [← h2, hd]⟩
      · rintro ⟨r2, hr2, _, hv⟩
        injection hr2 with hr2
        rw [hv, ← hr2, hd]

/-- C3, counterexample: resolving with `recordType = 16` (TXT) against a
response whose answer section contains a record of exactly that type: the
claim says this iteration returns that record's data, but `get_answer`
looks only for `TYPE_A`, so `resolve` finds no answer, no glue and no NS
referral and raises (`err`) instead of succeeding. -/
theorem resolve_requested_type_counterexample :
    (txtPacket.answers.any fun r => r.type_ == 16) = true ∧
    resolve txtOracle 1 [101] 16 = .err := by decide

/-- C3, amended: in each iteration, `resolve` returns successfully iff
the first `TYPE_A` record of the answer section exists and has nonempty
data — the requested `recordType` plays no role — and the value returned
is that record's data; such a success step makes `resolveLoop` return
exactly that value. -/
theorem resolve_success_iff_first_a_answer
    (p : DNSPacket) (v : List Nat) (oracle : Oracle) (fuel : Nat)
    (ns d : List Nat) (rt : Nat) :
    (resolveStep p = .success v ↔
      ∃ r, p.answers.find? (fun a => a.type_ == TYPE_A) = some r ∧
        r.data ≠ [] ∧ v = r.data) ∧
    (resolveStep (oracle ns d rt) = .success v →
      resolveLoop oracle (fuel + 1) ns d rt = .ok v) := by
  constructor
  · rw [resolveStep_success_iff]
    exact truthy_get_answer_iff p v
  · intro h
    simp only [resolveLoop, h]

/-- C3, witness: the amended theorem applied to `answerPacket` with
requested record type 16. -/
theorem resolve_success_iff_first_a_answer_witness :
    (resolveStep answerPacket = .success [49, 46, 50, 46, 51, 46, 52] ↔
      ∃ r, answerPacket.answers.find? (fun a => a.type_ == TYPE_A) = some r ∧
        r.data ≠ [] ∧ [49, 46, 50, 46, 51, 46, 52] = r.data) ∧
    (resolveStep (answerOracle rootNameserver [101] 16) =
        .success [49, 46, 50, 46, 51, 46, 52] →
      resolveLoop answerOracle 1 rootNameserver [101] 16 =
        .ok [49, 46, 50, 46, 51, 46, 52]) :=
  resolve_success_iff_first_a_answer answerPacket
    [49, 46, 50, 46, 51, 46, 52] answerOracle 0 rootNameserver [101] 16

/-- C5, counterexample: with requested `recordType = 16`, `mixedPacket`'s
answer section contains no record of the requested type while its
additional section contains an A record, so the claim says `resolve`
continues the loop with the glue address `"5.6.7.8"`; instead the code
returns the answer-section A record `"1.2.3.4"` as a success. -/
theorem glue_referral_counterexample :
    (mixedPacket.answers.any fun r => r.type_ == 16) = false ∧
    (mixedPacket.additionals.any fun r => r.type_ == TYPE_A) = true ∧
    resolveStep mixedPacket = .success [49, 46, 50, 46, 51, 46, 52] ∧
    resolveStep mixedPacket ≠ .continueWith [53, 46, 54, 46, 55, 46, 56] := by
  decide

/-- C5, amended: when the answer section contains no A record (the
requested record type plays no role) and the additional section's first A
record carries a nonempty address, `resolve` continues the loop with that
address and no recursion; only when the additional section yields no A
record does it fall back to recursively resolving the authority section's
first NS name; and a `continueWith` step really does continue the same
loop. -/
theorem glue_referral_precedence
    (p : DNSPacket) (ip nsd : List Nat) (oracle : Oracle) (fuel : Nat)
    (ns d : List Nat) (rt : Nat) :
    (get_answer p = none → get_nameserver_ip p = some ip → ip ≠ [] →
      resolveStep p = .continueWith ip) ∧
    (get_answer p = none → get_nameserver_ip p = none →
      get_nameserver p = some nsd → nsd ≠ [] →
      resolveStep p = .recurse nsd) ∧
    (resolveStep (oracle ns d rt) = .continueWith ip →
      resolveLoop oracle (fuel + 1) ns d rt =
        resolveLoop oracle fuel ip d rt) := by
  refine ⟨?_, ?_, ?_⟩
  · intro h1 h2 h3
    unfold resolveStep
    rw [h1, h2]
    cases ip with
    | nil => exact absurd rfl h3
    | cons a l => simp [truthyOpt]
  · intro h1 h2 h3 h4
    unfold resolveStep
    rw [h1, h2, h3]
    cases nsd with
    | nil => exact absurd rfl h4
    | cons a l => simp [truthyOpt]
  · intro h
    simp only [resolveLoop, h]

/-- C5, witness: the amended theorem applied to the glue referral
`gluePacket`, the glueless referral `nsPacket`, and one loop step of the
glue network. -/
theorem glue_referral_precedence_witness :
    resolveStep gluePacket = .continueWith [49, 46, 50, 46, 51, 46, 52] ∧
    resolveStep nsPacket = .recurse [110, 115, 49] ∧
    resolveLoop glueOracle 1 rootNameserver [101] 1 =
      resolveLoop glueOracle 0 [49, 46, 50, 46, 51, 46, 52] [101] 1 :=
  ⟨(glue_referral_precedence gluePacket [49, 46, 50, 46, 51, 46, 52]
      [110, 115, 49] glueOracle 0 rootNameserver [101] 1).1
      rfl rfl (by decide),
   (glue_referral_precedence nsPacket [49, 46, 50, 46, 51, 46, 52]
      [110, 115, 49] glueOracle 0 rootNameserver [101] 1).2.1
      rfl rfl rfl (by decide),
   (glue_referral_precedence gluePacket [49, 46, 50, 46, 51, 46, 52]
      [110, 115, 49] glueOracle 0 rootNameserver [101] 1).2.2 (by decide)⟩

lemma splitOnDot_ne_nil (s : List Nat) : splitOnDot s ≠ [] := by
  cases s with
  | nil => simp [splitOnDot]
  | cons c rest =>
    simp only [splitOnDot]
    split
    · simp
    · cases h : splitOnDot rest <;> simp

lemma dotJoin_splitOnDot (s : List Nat) : dotJoin (splitOnDot s) = s := by
  induction s with
  | nil => rfl
  | cons c rest ih =>
    by_cases hc : c = 46
    · subst hc
      simp only [splitOnDot, if_pos rfl]
      cases h : splitOnDot rest with
      | nil => exact absurd h (splitOnDot_ne_nil rest)
      | cons q qs =>
        rw [h] at ih
        simp [dotJoin, ih]
    · simp only [splitOnDot, if_neg hc]
      cases h : splitOnDot rest with
      | nil => exact absurd h (splitOnDot_ne_nil rest)
      | cons q qs =>
        rw [h] at ih
        cases qs with
        | nil =>
          simp only [dotJoin] at ih ⊢
          rw [ih]
        | cons q2 qs2 =>
          simp only [dotJoin] at ih ⊢
          rw [List.cons_append, ih]

lemma encodeParts_length_ge (parts : List (List Nat)) :
    parts.length ≤ (encodeParts parts).length := by
  induction parts with
  | nil => simp [encodeParts]
  | cons p ps ih => simp only [encodeParts, List.length_cons, List.length_append]; omega

lemma isPointerLength_le63 : ∀ length : Nat, length ≤ 63 → isPointerLength length = false := by
  decide

lemma getElem?_append_cons (pre rest : List Nat) (x : Nat) :
    (pre ++ x :: rest)[pre.length]? = some x := by
  rw [List.getElem?_append_right (Nat.le_refl pre.length)]
  simp

/-- Reading back a sequence of length-prefixed nonempty labels (each at
most 63 bytes, so never mistaken for a pointer) terminated by a zero byte
recovers exactly those labels and leaves the cursor just past the zero,
for any surrounding buffer contents and any sufficient fuel. -/
lemma decodeNameParts_encodeParts (parts : List (List Nat)) :
    (∀ p ∈ parts, p ≠ [] ∧ p.length ≤ 63) →
    ∀ (pre post : List Nat) (fuel : Nat), parts.length + 1 ≤ fuel →
      decodeNameParts fuel (pre ++ (encodeParts parts ++ 0 :: post)) pre.length =
        .ok (parts, pre.length + (encodeParts parts).length + 1) := by
  induction parts with
  | nil =>
    intro _ pre post fuel hfuel
    cases fuel with
    | zero => omega
    | succ f =>
      simp only [encodeParts, List.nil_append, List.length_nil]
      simp only [decodeNameParts, getElem?_append_cons]
      simp
  | cons p ps ih =>
    intro hp pre post fuel hfuel
    obtain ⟨hpne, hple⟩ := hp p (by simp)
    have hps : ∀ q ∈ ps, q ≠ [] ∧ q.length ≤ 63 := fun q hq => hp q (by simp [hq])
    cases fuel with
    | zero => simp only [List.length_cons] at hfuel; omega
    | succ f =>
      have hbuf : pre ++ (encodeParts (p :: ps) ++ 0 :: post) =
          pre ++ p.length :: (p ++ (encodeParts ps ++ 0 :: post)) := by
        simp [encodeParts]
      rw [hbuf]
      have hlen0 : ¬ p.length = 0 := by
        simpa [List.length_eq_zero] using hpne
      simp only [decodeNameParts, getElem?_append_cons, if_neg hlen0,
        isPointerLength_le63 p.length hple, Bool.false_eq_true, if_false]
      have hdrop : (pre ++ p.length :: (p ++ (encodeParts ps ++ 0 :: post))).drop
          (pre.length + 1) = p ++ (encodeParts ps ++ 0 :: post) := by
        have h1 : pre ++ p.length :: (p ++ (encodeParts ps ++ 0 :: post)) =
            (pre ++ [p.length]) ++ (p ++ (encodeParts ps ++ 0 :: post)) := by simp
        have h2 : (pre ++ [p.length]).length = pre.length + 1 := by simp
        rw [h1, ← h2, List.drop_left]
      rw [hdrop, List.take_left]
      have hrec := ih hps (pre ++ p.length :: p) post f (by
        simp only [List.length_cons] at hfuel; omega)
      have hbuf2 : (pre ++ p.length :: p) ++ (encodeParts ps ++ 0 :: post) =
          pre ++ p.length :: (p ++ (encodeParts ps ++ 0 :: post)) := by simp
      have hpos2 : (pre ++ p.length :: p).length = pre.length + 1 + p.length := by
        simp only [List.length_append, List.length_cons]; omega
      rw [hbuf2, hpos2] at hrec
      rw [hrec]
      simp only [DecRes.ok.injEq, Prod.mk.injEq, true_and, encodeParts,
        List.length_cons, List.length_append]
      omega

/-- C9: for any dotted ASCII name whose labels (as produced by the dot
split) are all nonempty and at most 63 bytes, `encode_dns_name` succeeds
and `decode_name` run on the resulting buffer — with fuel no larger than
the buffer length — recovers exactly the original name, consuming the
whole buffer. -/
theorem decode_encode_roundtrip (s : List Nat)
    (h : ∀ p ∈ splitOnDot s, p ≠ [] ∧ p.length ≤ 63) :
    ∃ enc, encode_dns_name s = some enc ∧
      decode_name enc.length enc 0 = .ok (s, enc.length) := by
  refine ⟨encodeParts (splitOnDot s) ++ [0], ?_, ?_⟩
  · unfold encode_dns_name
    rw [if_pos]
    simp only [List.all_eq_true, decide_eq_true_eq]
    intro p hp
    exact Nat.le_trans (h p hp).2 (by norm_num)
  · have hfuel : (splitOnDot s).length + 1 ≤
        (encodeParts (splitOnDot s) ++ [0]).length := by
      simp only [List.length_append, List.length_cons, List.length_nil]
      have := encodeParts_length_ge (splitOnDot s)
      omega
    have hmain := decodeNameParts_encodeParts (splitOnDot s) h [] []
      (encodeParts (splitOnDot s) ++ [0]).length hfuel
    simp only [List.nil_append, List.length_nil, Nat.zero_add] at hmain
    unfold decode_name
    rw [hmain]
    simp [dotJoin_splitOnDot, List.length_append]

/-- C9, witness: the round trip at the name `"a.bc"`
(ASCII `[97, 46, 98, 99]`). -/
theorem decode_encode_roundtrip_witness :
    (∀ p ∈ splitOnDot [97, 46, 98, 99], p ≠ [] ∧ p.length ≤ 63) ∧
    ∃ enc, encode_dns_name [97, 46, 98, 99] = some enc ∧
      decode_name enc.length enc 0 = .ok ([97, 46, 98, 99], enc.length) :=
  ⟨by decide, decode_encode_roundtrip [97, 46, 98, 99] (by decide)⟩

/-- C10: the module seeds the global generator with the constant 1 when
imported (`random.seed(1)`), so the bytes of the k-th `build_query` call
do not depend on the process's startup entropy: every run produces the
same query bytes and the same transaction-id sequence. -/
theorem build_query_entropy_independent :
    ∀ (entropy1 entropy2 k : Nat) (domain : List Nat) (recordType : Nat),
      kthQueryBytes entropy1 k domain recordType =
        kthQueryBytes entropy2 k domain recordType := by
  intro entropy1 entropy2 k domain recordType
  rfl
